import Mathlib

/-!
Verification development for the redi wallet-service onboarding and buffer
modules (`onboarding.service.ts`, `onboarding.controller.ts`,
`buffer.controller.ts`, `supabase.service.ts`, `crossmint.service.ts`).

The datastore (Supabase `profiles` and `buffer_transactions` tables) is
modelled as association lists keyed by id.  External collaborators (the
Crossmint wallet provider, the DeFindex vault adapter, and the Soroban
chain RPC) are modelled as oracle functions bundled in an `Env`; the
chain RPC oracle maps the index of a query to the status it returns.
Statuses are the literal strings the source compares against.
-/

/-- A row of the `profiles` table, restricted to the columns the
onboarding and buffer modules read or write. -/
structure UserRecord where
  email : String
  stellar_address : Option String
  defindex_vault_address : Option String
  buffer_onboarding_status : Option String
  crossmint_wallet_id : Option String
deriving Repr, DecidableEq

/-- The `metadata` JSON written by `prepareVaultCreation`: the
operation tag `VAULT_CREATE` plus the predicted vault address. -/
structure TxMetadata where
  operation : Option String
  predictedVaultAddress : Option String
deriving Repr, DecidableEq

/-- A row of the `buffer_transactions` table
(`BufferTransactionRecord` in `supabase.service.ts`). -/
structure TxRecord where
  id : String
  profileId : String
  transactionType : String
  status : Option String
  stellarTxHash : Option String
  metadata : Option TxMetadata
deriving Repr, DecidableEq

/-- The persistent store: the `profiles` and `buffer_transactions`
tables, as association lists keyed by row id (ids are unique: both
columns are primary keys in the schema). -/
structure Datastore where
  users : List (String × UserRecord)
  txs : List (String × TxRecord)
deriving Repr, DecidableEq

/-- Lookup in an association list (a `select ... eq(id, k) single`). -/
def assocFind {α : Type} (l : List (String × α)) (k : String) : Option α :=
  (l.find? fun p => p.1 == k).map (fun p => p.2)

/-- Pointwise update of every entry with the given key
(an `update ... eq(id, k)`). -/
def assocUpdate {α : Type} (l : List (String × α)) (k : String) (f : α → α) :
    List (String × α) :=
  l.map fun p => if p.1 == k then (p.1, f p.2) else p

theorem assocFind_update {α : Type} (l : List (String × α)) (k : String) (f : α → α) :
    assocFind (assocUpdate l k f) k = (assocFind l k).map f := by
  induction l with
  | nil => rfl
  | cons hd tl ih =>
    by_cases h : hd.1 = k
    · simp [assocFind, assocUpdate, List.find?, h]
    · have hb : (hd.1 == k) = false := beq_eq_false_iff_ne.mpr h
      simpa [assocFind, assocUpdate, List.find?, hb] using ih

theorem assocFind_cons_self {α : Type} (l : List (String × α)) (k : String) (v : α) :
    assocFind ((k, v) :: l) k = some v := by
  simp [assocFind, List.find?]

/-- `SupabaseService.getUser` (modulo errors): read the profile row. -/
def findUser (db : Datastore) (uid : String) : Option UserRecord :=
  assocFind db.users uid

/-- Read a buffer-transaction row by id. -/
def findTx (db : Datastore) (txId : String) : Option TxRecord :=
  assocFind db.txs txId

/-- JavaScript truthiness of a nullable string field
(`typeof x === "string" && x.length > 0`, equivalently `!x` negated). -/
def strTruthy : Option String → Bool
  | some s => !(s == "")
  | none => false

/-- The truthy value of a nullable string field, or `none`
(the source's `typeof x === "string" && x.length > 0 ? x : null`). -/
def truthyStr : Option String → Option String
  | some s => if s == "" then none else some s
  | none => none

/-- The optional `data` argument of
`SupabaseService.updateUserOnboardingStatus` (a `Partial<BufferOnboardingData>`
spread over the row: only the fields that are present overwrite). -/
structure ProfilePatch where
  stellar_address : Option String := none
  crossmint_wallet_id : Option String := none
  defindex_vault_address : Option String := none
deriving Repr, DecidableEq

/-- Apply a status write plus patch to one profile row: the status
column plus the spread patch fields. -/
def applyProfilePatch (status : String) (p : ProfilePatch) (u : UserRecord) : UserRecord :=
  { u with
    buffer_onboarding_status := some status
    stellar_address :=
      match p.stellar_address with
      | some v => some v
      | none => u.stellar_address
    crossmint_wallet_id :=
      match p.crossmint_wallet_id with
      | some v => some v
      | none => u.crossmint_wallet_id
    defindex_vault_address :=
      match p.defindex_vault_address with
      | some v => some v
      | none => u.defindex_vault_address }

/-- `SupabaseService.updateUserOnboardingStatus`: update the row matching
`id = uid`; a missing row updates nothing and raises no error. -/
def updateUserOnboardingStatus (db : Datastore) (uid status : String)
    (p : ProfilePatch) : Datastore :=
  { db with users := assocUpdate db.users uid (applyProfilePatch status p) }

/-- `SupabaseService.upsertUser`: insert the id, the email and status
`PENDING`, with `ignoreDuplicates: true` — an existing row is left
untouched. -/
def upsertUser (db : Datastore) (uid email : String) : Datastore :=
  match findUser db uid with
  | some _ => db
  | none =>
    { db with
      users := (uid, { email := email, stellar_address := none,
                       defindex_vault_address := none,
                       buffer_onboarding_status := some "PENDING",
                       crossmint_wallet_id := none }) :: db.users }

/-- `SupabaseService.createBufferTransaction`: insert a new row with a
freshly generated id (the generated id is passed in explicitly). -/
def createBufferTransaction (db : Datastore) (freshId uid txType : String)
    (meta : Option TxMetadata) : String × Datastore :=
  (freshId,
   { db with
     txs := (freshId,
             { id := freshId, profileId := uid, transactionType := txType,
               status := some "PENDING", stellarTxHash := none,
               metadata := meta }) :: db.txs })

/-- The errors thrown by the modelled services; `message` below renders
the exact string each `throw new Error(...)` site produces. -/
inductive ServiceError where
  | noWallet
  | alreadyActive
  | missingPredicted
  | rpcBadStatus (statusText : String)
  | notConfirmed (vaultAddress : String)
  | confirmTxNotFound (txId : String)
  | getTxNotFound (txId : String)
  | getUserFailed (userId : String)
  | adapter (msg : String)
deriving Repr, DecidableEq

/-- The message carried by each thrown error, verbatim from the source. -/
def ServiceError.message : ServiceError → String
  | noWallet =>
    "[OnboardingService] User has no wallet address. Complete wallet provisioning first."
  | alreadyActive => "[OnboardingService] User already has an active vault."
  | missingPredicted =>
    "[OnboardingService] Missing predicted vault address for submitted vault transaction."
  | rpcBadStatus s => "[OnboardingService] Vault submit RPC status: " ++ s
  | notConfirmed v =>
    "[OnboardingService] Vault " ++ v ++ " not confirmed by DeFindex API after polling"
  | confirmTxNotFound t =>
    "[SupabaseService] confirmBufferTransactionForUser failed for tx " ++ t
      ++ ": transaction not found"
  | getTxNotFound t =>
    "[SupabaseService] getBufferTransactionForUser failed for tx " ++ t
      ++ ": transaction not found"
  | getUserFailed u => "[SupabaseService] getUser failed for " ++ u ++ ": no rows returned"
  | adapter m => m

/-- `SupabaseService.confirmBufferTransactionForUser`: a single
conditional update scoped by `id = txId` and `profile_id = uid`; the
following `.single()` fails when no row matched, leaving the store
untouched. -/
def confirmBufferTransactionForUser (db : Datastore) (uid txId hash : String) :
    Except ServiceError Unit × Datastore :=
  match findTx db txId with
  | some tx =>
    if tx.profileId == uid then
      (Except.ok (),
       { db with
         txs := assocUpdate db.txs txId fun t =>
           if t.profileId == uid then
             { t with status := some "CONFIRMED", stellarTxHash := some hash }
           else t })
    else (Except.error (ServiceError.confirmTxNotFound txId), db)
  | none => (Except.error (ServiceError.confirmTxNotFound txId), db)

/-- `SupabaseService.getBufferTransactionForUser`: read scoped by
`id = txId` and `profile_id = uid`. -/
def getBufferTransactionForUser (db : Datastore) (uid txId : String) :
    Except ServiceError TxRecord :=
  match findTx db txId with
  | some tx =>
    if tx.profileId == uid then Except.ok tx
    else Except.error (ServiceError.getTxNotFound txId)
  | none => Except.error (ServiceError.getTxNotFound txId)

/-- `rpc.Api.GetTransactionStatus` of the Stellar SDK, as consumed by
`submitVaultCreation`. -/
inductive RpcStatus where
  | NOT_FOUND
  | SUCCESS
  | FAILED
deriving Repr, DecidableEq

/-- The string-enum value interpolated into the failure message. -/
def RpcStatus.label : RpcStatus → String
  | NOT_FOUND => "NOT_FOUND"
  | SUCCESS => "SUCCESS"
  | FAILED => "FAILED"

/-- The wallet returned by `getOrCreateWalletByEmail` of the Crossmint
package. -/
structure WalletInfo where
  address : String
  chain : String
deriving Repr, DecidableEq

/-- The response of `DeFindexService.createVaultForUser`. -/
structure VaultCreateResponse where
  transactionXDR : String
  predictedVaultAddress : Option String
deriving Repr, DecidableEq

/-- The external collaborators, as oracles.  `rpcGetTransaction n` is the
status returned by the n-th query (0-based) of
`sorobanRpc.getTransaction(transactionHash)` within one
`submitVaultCreation` call; `createVaultForUser` is keyed by the user's
wallet address (asset and strategy come from fixed configuration). -/
structure Env where
  getOrCreateWallet : String → Except String WalletInfo
  createVaultForUser : String → Except String VaultCreateResponse
  rpcGetTransaction : Nat → RpcStatus
  waitForVaultConfirmation : String → Bool

/-- The retry loop of `submitVaultCreation`:
`for (let i = 0; i < 10 && rpcResult.status === NOT_FOUND; i++)`, modelled
structurally with `fuel` = retries remaining (initially 10, so the loop
bound `i < 10` is the fuel reaching 0) and `i` = index of the query that
produced `r`. -/
def pollRetries (o : Nat → RpcStatus) : Nat → Nat → RpcStatus → RpcStatus
  | 0, _, r => r
  | fuel + 1, i, r =>
    if r = RpcStatus.NOT_FOUND then pollRetries o fuel (i + 1) (o (i + 1)) else r

/-- The whole polling step: one initial query, then the retry loop. -/
def pollTransaction (o : Nat → RpcStatus) : RpcStatus :=
  pollRetries o 10 0 (o 0)

/-- `OnboardingService.createWallet` (the `[1/2]` step): Crossmint wallet
creation, then persist address + id with status `WALLET_CREATED`.
`CrossmintService.createWalletForUser` uses the wallet address as
`walletId`. -/
def createWallet (env : Env) (db : Datastore) (uid email : String) :
    Except ServiceError Datastore :=
  match env.getOrCreateWallet email with
  | Except.error msg =>
    Except.error (ServiceError.adapter
      ("[CrossmintService] createWalletForUser failed: " ++ msg))
  | Except.ok w =>
    Except.ok (updateUserOnboardingStatus db uid "WALLET_CREATED"
      { stellar_address := some w.address, crossmint_wallet_id := some w.address })

/-- The result shape of `onboardUser`. -/
structure OnboardingResult where
  userId : String
  stellarAddress : Option String
  vaultAddress : Option String
  status : String
deriving Repr, DecidableEq

/-- The `try` body of `OnboardingService.onboardUser`. -/
def onboardUserTry (env : Env) (db : Datastore) (uid email : String) :
    Except ServiceError OnboardingResult × Datastore :=
  let db0 := upsertUser db uid email
  match findUser db0 uid with
  | none => (Except.error (ServiceError.getUserFailed uid), db0)
  | some user =>
    if user.buffer_onboarding_status = some "READY" then
      (Except.ok { userId := uid, stellarAddress := user.stellar_address,
                   vaultAddress := user.defindex_vault_address, status := "READY" },
       db0)
    else
      match (if strTruthy user.stellar_address then Except.ok db0
             else createWallet env db0 uid email) with
      | Except.error e => (Except.error e, db0)
      | Except.ok db1 =>
        match findUser db1 uid with
        | none => (Except.error (ServiceError.getUserFailed uid), db1)
        | some userWithWallet =>
          let db2 :=
            if !strTruthy userWithWallet.defindex_vault_address then
              let currentStatus :=
                match userWithWallet.buffer_onboarding_status with
                | some s => if s == "" then "WALLET_CREATED" else s
                | none => "WALLET_CREATED"
              if currentStatus == "NOT_STARTED" || currentStatus == "PENDING" then
                updateUserOnboardingStatus db1 uid "WALLET_CREATED" {}
              else db1
            else db1
          match findUser db2 uid with
          | none => (Except.error (ServiceError.getUserFailed uid), db2)
          | some finalUser =>
            (Except.ok
              { userId := uid, stellarAddress := finalUser.stellar_address,
                vaultAddress := finalUser.defindex_vault_address,
                status :=
                  match finalUser.buffer_onboarding_status with
                  | some s => if s == "" then "WALLET_CREATED" else s
                  | none => "WALLET_CREATED" },
             db2)

/-- `OnboardingService.onboardUser`: the `try` body plus the `catch` that
best-effort marks the record `FAILED` and re-raises. -/
def onboardUser (env : Env) (db : Datastore) (uid email : String) :
    Except ServiceError OnboardingResult × Datastore :=
  match onboardUserTry env db uid email with
  | (Except.ok r, db1) => (Except.ok r, db1)
  | (Except.error e, db1) =>
    (Except.error e, updateUserOnboardingStatus db1 uid "FAILED" {})

/-- The result shape of `prepareVaultCreation`. -/
structure PrepareVaultResult where
  txId : String
  transactionXDR : String
  walletAddress : String
  predictedVaultAddress : Option String
deriving Repr, DecidableEq

/-- `OnboardingService.prepareVaultCreation`.  The generated id of the
inserted `LOCK` row is passed in as `freshTxId`. -/
def prepareVaultCreation (env : Env) (db : Datastore) (uid freshTxId : String) :
    Except ServiceError PrepareVaultResult × Datastore :=
  match findUser db uid with
  | none => (Except.error (ServiceError.getUserFailed uid), db)
  | some user =>
    match truthyStr user.stellar_address with
    | none => (Except.error ServiceError.noWallet, db)
    | some stellarAddress =>
      if strTruthy user.defindex_vault_address
          && (user.buffer_onboarding_status == some "READY") then
        (Except.error ServiceError.alreadyActive, db)
      else
        let db1 := updateUserOnboardingStatus db uid "VAULT_PREPARING" {}
        match env.createVaultForUser stellarAddress with
        | Except.error msg => (Except.error (ServiceError.adapter msg), db1)
        | Except.ok vr =>
          let created := createBufferTransaction db1 freshTxId uid "LOCK"
            (some { operation := some "VAULT_CREATE",
                    predictedVaultAddress := vr.predictedVaultAddress })
          let db3 := updateUserOnboardingStatus created.2 uid "VAULT_PENDING_SIGNATURE" {}
          (Except.ok { txId := created.1, transactionXDR := vr.transactionXDR,
                       walletAddress := stellarAddress,
                       predictedVaultAddress := vr.predictedVaultAddress },
           db3)

/-- The result shape of `submitVaultCreation`. -/
structure SubmitVaultResult where
  txId : String
  transactionHash : String
  vaultAddress : String
  status : String
deriving Repr, DecidableEq

/-- The predicted vault address read back from the record's metadata:
a string-typed `predictedVaultAddress` that is also truthy (the source
nulls out non-strings, then `if (!predictedVaultAddress) throw`). -/
def recordPredicted (t : TxRecord) : Option String :=
  match t.metadata with
  | some m => truthyStr m.predictedVaultAddress
  | none => none

/-- The steps of `submitVaultCreation` after the LOCK record is
confirmed: re-read it, validate the predicted address, poll the chain
RPC, poll vault liveness, then persist `READY` plus the vault address. -/
def submitAfterConfirm (env : Env) (db1 : Datastore) (uid txId transactionHash : String) :
    Except ServiceError SubmitVaultResult × Datastore :=
  match getBufferTransactionForUser db1 uid txId with
    | Except.error e => (Except.error e, db1)
    | Except.ok record =>
      match recordPredicted record with
      | none => (Except.error ServiceError.missingPredicted, db1)
      | some predictedVaultAddress =>
        if !(pollTransaction env.rpcGetTransaction == RpcStatus.SUCCESS) then
          (Except.error
            (ServiceError.rpcBadStatus (pollTransaction env.rpcGetTransaction).label), db1)
        else if !(env.waitForVaultConfirmation predictedVaultAddress) then
          (Except.error (ServiceError.notConfirmed predictedVaultAddress), db1)
        else
          (Except.ok { txId := txId, transactionHash := transactionHash,
                       vaultAddress := predictedVaultAddress, status := "READY" },
           updateUserOnboardingStatus db1 uid "READY"
             { defindex_vault_address := some predictedVaultAddress })

/-- `OnboardingService.submitVaultCreation`: confirm the LOCK record
(ownership-checked), then run the post-confirmation steps. -/
def submitVaultCreation (env : Env) (db : Datastore) (uid txId transactionHash : String) :
    Except ServiceError SubmitVaultResult × Datastore :=
  match confirmBufferTransactionForUser db uid txId transactionHash with
  | (Except.error e, db1) => (Except.error e, db1)
  | (Except.ok _, db1) => submitAfterConfirm env db1 uid txId transactionHash

/-- `pat` is a prefix of `l` (character by character). -/
def prefixAt : List Char → List Char → Bool
  | [], _ => true
  | _ :: _, [] => false
  | p :: ps, c :: cs => p == c && prefixAt ps cs

/-- `pat` occurs contiguously in `l`. -/
def hasSub : List Char → List Char → Bool
  | [], pat => pat.isEmpty
  | c :: tl, pat => prefixAt pat (c :: tl) || hasSub tl pat

/-- Substring containment — the Status Resolver's
`message.includes(...)` checks. -/
def containsSub (s pat : String) : Bool :=
  hasSub s.data pat.data

/-- `message.toLowerCase()` over the resolver's ASCII failure phrases:
lowercase every character. -/
def asciiLower (s : String) : String :=
  ⟨s.data.map Char.toLower⟩

/-- The pair produced by the Status Resolver. -/
structure ResolvedStatus where
  statusCode : Nat
  errorCode : String
deriving Repr, DecidableEq

/-- `OnboardingController.resolveStatusFromMessage`: lowercase the
message, then dispatch on known failure phrases in order. -/
def resolveStatusFromMessage (message : String) : ResolvedStatus :=
  let lower := asciiLower message
  if containsSub lower "already has an active vault" then
    { statusCode := 409, errorCode := "VAULT_ALREADY_ACTIVE" }
  else if containsSub lower "no wallet address" then
    { statusCode := 409, errorCode := "WALLET_NOT_READY" }
  else if containsSub lower "missing predicted vault address" then
    { statusCode := 409, errorCode := "VAULT_SUBMIT_INVALID_STATE" }
  else if containsSub lower "not confirmed" then
    { statusCode := 409, errorCode := "VAULT_NOT_CONFIRMED" }
  else
    { statusCode := 500, errorCode := "ONBOARDING_INTERNAL_ERROR" }

/-- A hexadecimal digit. -/
def isHexDigit (c : Char) : Bool :=
  c.isDigit || ('a' ≤ c && c ≤ 'f') || ('A' ≤ c && c ≤ 'F')

/-- Split a character list on the hyphen character. -/
def splitDash : List Char → List (List Char)
  | [] => [[]]
  | c :: tl =>
    if c == '-' then [] :: splitDash tl
    else
      match splitDash tl with
      | g :: gs => (c :: g) :: gs
      | [] => [[c]]

/-- Model of the zod `.uuid()` string validator used by the request
schemas: five hyphen-separated hexadecimal groups of sizes 8-4-4-4-12. -/
def isUuid (s : String) : Bool :=
  match splitDash s.data with
  | [a, b, c, d, e] =>
    a.length == 8 && b.length == 4 && c.length == 4 && d.length == 4
      && e.length == 12 && (a ++ b ++ c ++ d ++ e).all isHexDigit
  | _ => false

/-- An inbound JSON request body, restricted to the fields the confirm
and legacy-submit schemas inspect; `none` is an absent field. -/
structure RequestBody where
  userId : Option String := none
  txId : Option String := none
  transactionHash : Option String := none
  walletLocator : Option String := none
  transactionXDR : Option String := none
deriving Repr, DecidableEq

/-- The data accepted by `confirmSchema` (`userId` uuid, `txId` uuid,
`transactionHash` min length 1). -/
structure ConfirmRequest where
  userId : String
  txId : String
  transactionHash : String
deriving Repr, DecidableEq

/-- `confirmSchema.safeParse`. -/
def parseConfirm (b : RequestBody) : Option ConfirmRequest :=
  match b.userId, b.txId, b.transactionHash with
  | some u, some t, some h =>
    if isUuid u && isUuid t && !(h == "") then some { userId := u, txId := t, transactionHash := h }
    else none
  | _, _, _ => none

/-- The data accepted by `legacySubmitSchema` (`userId` uuid, `txId`
uuid, `walletLocator` min length 1, `transactionXDR` min length 1). -/
structure LegacySubmitRequest where
  userId : String
  txId : String
  walletLocator : String
  transactionXDR : String
deriving Repr, DecidableEq

/-- `legacySubmitSchema.safeParse`. -/
def parseLegacySubmit (b : RequestBody) : Option LegacySubmitRequest :=
  match b.userId, b.txId, b.walletLocator, b.transactionXDR with
  | some u, some t, some w, some x =>
    if isUuid u && isUuid t && !(w == "") && !(x == "") then
      some { userId := u, txId := t, walletLocator := w, transactionXDR := x }
    else none
  | _, _, _, _ => none

/-- An HTTP reply, reduced to status code and error code (`errorCode`
is `none` on the success `res.json` path). -/
structure HttpReply where
  statusCode : Nat
  errorCode : Option String
deriving Repr, DecidableEq

/-- `BufferController.submitDeposit`: try the confirm schema; on
failure, a payload matching the legacy pre-signed shape is rejected with
409 `USER_SIGNATURE_REQUIRED`; otherwise 400.  A parsed request is
forwarded to `confirmBufferTransactionForUser`. -/
def submitDeposit (db : Datastore) (b : RequestBody) : HttpReply × Datastore :=
  match parseConfirm b with
  | some req =>
    match confirmBufferTransactionForUser db req.userId req.txId req.transactionHash with
    | (Except.ok _, db1) => ({ statusCode := 200, errorCode := none }, db1)
    | (Except.error _, db1) =>
      ({ statusCode := 500, errorCode := some "DEPOSIT_CONFIRM_FAILED" }, db1)
  | none =>
    match parseLegacySubmit b with
    | some _ => ({ statusCode := 409, errorCode := some "USER_SIGNATURE_REQUIRED" }, db)
    | none => ({ statusCode := 400, errorCode := some "INVALID_REQUEST" }, db)

/-- `BufferController.submitWithdraw`: identical pipeline, with the
withdraw-specific generic failure code. -/
def submitWithdraw (db : Datastore) (b : RequestBody) : HttpReply × Datastore :=
  match parseConfirm b with
  | some req =>
    match confirmBufferTransactionForUser db req.userId req.txId req.transactionHash with
    | (Except.ok _, db1) => ({ statusCode := 200, errorCode := none }, db1)
    | (Except.error _, db1) =>
      ({ statusCode := 500, errorCode := some "WITHDRAW_CONFIRM_FAILED" }, db1)
  | none =>
    match parseLegacySubmit b with
    | some _ => ({ statusCode := 409, errorCode := some "USER_SIGNATURE_REQUIRED" }, db)
    | none => ({ statusCode := 400, errorCode := some "INVALID_REQUEST" }, db)

/-- The reply of `OnboardingController.getStatus`. -/
structure StatusReply where
  statusCode : Nat
  status : Option String
  errorCode : Option String
deriving Repr, DecidableEq

/-- `OnboardingController.getStatus`: validate the user id, then read the
profile row inside a `try` whose `catch` answers `NOT_STARTED`.
`readFault` models `supabaseService.getUser` throwing for a transient
reason even though the row exists; the `.single()` of a missing row
throws through the same `catch`. -/
def getStatus (db : Datastore) (readFault : Bool) (b : RequestBody) : StatusReply :=
  match b.userId with
  | some uid =>
    if isUuid uid then
      if readFault then { statusCode := 200, status := some "NOT_STARTED", errorCode := none }
      else
        match findUser db uid with
        | some u =>
          { statusCode := 200,
            status := some (match u.buffer_onboarding_status with
                            | some s => s
                            | none => "PENDING"),
            errorCode := none }
        | none => { statusCode := 200, status := some "NOT_STARTED", errorCode := none }
    else { statusCode := 400, status := none, errorCode := some "INVALID_REQUEST" }
  | none => { statusCode := 400, status := none, errorCode := some "INVALID_REQUEST" }

/-- The forward order of the onboarding state machine; `FAILED` and any
other string are outside the chain. -/
def statusRank : Option String → Option Nat
  | some "PENDING" => some 0
  | some "WALLET_CREATED" => some 1
  | some "VAULT_PREPARING" => some 2
  | some "VAULT_PENDING_SIGNATURE" => some 3
  | some "READY" => some 4
  | _ => none

/-- `movedBack old new` holds (as a boolean) when both statuses sit on
the forward chain and `new` is strictly earlier than `old` — a backward
move that is not a move into `FAILED`. -/
def movedBack (old new : Option String) : Bool :=
  match statusRank old, statusRank new with
  | some a, some b => decide (b < a)
  | _, _ => false

/-- The persisted onboarding status of a user (null and no-row collapse
to `none`, which sits outside the chain). -/
def statusOf (db : Datastore) (uid : String) : Option String :=
  match findUser db uid with
  | some u => u.buffer_onboarding_status
  | none => none

/-- The reachability invariant the status-monotonicity argument needs:
a user in the vault-creation stages has a truthy wallet address (both
stages are only ever entered by `prepareVaultCreation`, which requires
one, and the wallet address is never cleared). -/
def userWalletInv (db : Datastore) (uid : String) : Bool :=
  (findUser db uid).all fun u =>
    !(u.buffer_onboarding_status == some "VAULT_PREPARING"
      || u.buffer_onboarding_status == some "VAULT_PENDING_SIGNATURE")
    || strTruthy u.stellar_address

/-- Whether an `Except` is a success (`.ok`). -/
def exceptIsOk {ε α : Type} : Except ε α → Bool
  | Except.ok _ => true
  | Except.error _ => false

/-- The chain-RPC oracle answers `NOT_FOUND` on its first ten queries. -/
def returnsTenNF (o : Nat → RpcStatus) : Bool :=
  (List.range 10).all fun n => o n == RpcStatus.NOT_FOUND

/-- Concrete ids for witnesses (valid under the modelled uuid format). -/
def uuidA : String := "11111111-1111-1111-1111-111111111111"

/-- A second user id. -/
def uuidB : String := "22222222-2222-2222-2222-222222222222"

/-- A transaction id. -/
def uuidT1 : String := "33333333-3333-3333-3333-333333333333"

/-- A fully onboarded user. -/
def userReady : UserRecord :=
  { email := "a@x.com", stellar_address := some "GREADY",
    defindex_vault_address := some "CVREADY",
    buffer_onboarding_status := some "READY", crossmint_wallet_id := some "GREADY" }

/-- A user awaiting the client signature of the vault-creation
transaction. -/
def userPendingSig : UserRecord :=
  { email := "a@x.com", stellar_address := some "GADDR",
    defindex_vault_address := none,
    buffer_onboarding_status := some "VAULT_PENDING_SIGNATURE",
    crossmint_wallet_id := some "GADDR" }

/-- A freshly upserted user with no wallet yet. -/
def userNoWallet : UserRecord :=
  { email := "a@x.com", stellar_address := none, defindex_vault_address := none,
    buffer_onboarding_status := some "PENDING", crossmint_wallet_id := none }

/-- A user with a wallet but no vault yet. -/
def userWalletOnly : UserRecord :=
  { email := "a@x.com", stellar_address := some "GADDR",
    defindex_vault_address := none,
    buffer_onboarding_status := some "WALLET_CREATED",
    crossmint_wallet_id := some "GADDR" }

/-- A pending `LOCK` record carrying a predicted vault address. -/
def lockTxMeta : TxRecord :=
  { id := uuidT1, profileId := uuidA, transactionType := "LOCK",
    status := some "PENDING", stellarTxHash := none,
    metadata := some { operation := some "VAULT_CREATE",
                       predictedVaultAddress := some "CVAULT1" } }

/-- A pending `LOCK` record whose metadata lacks the predicted vault
address. -/
def lockTxNoMeta : TxRecord :=
  { id := uuidT1, profileId := uuidA, transactionType := "LOCK",
    status := some "PENDING", stellarTxHash := none, metadata := none }

/-- A pending record owned by the other user. -/
def txOtherOwner : TxRecord :=
  { id := uuidT1, profileId := uuidB, transactionType := "DEPOSIT",
    status := some "PENDING", stellarTxHash := none, metadata := none }

/-- Environment whose chain RPC always answers `NOT_FOUND` and whose
adapters fail. -/
def envAllNF : Env :=
  { getOrCreateWallet := fun _ => Except.error "unavailable",
    createVaultForUser := fun _ => Except.error "unavailable",
    rpcGetTransaction := fun _ => RpcStatus.NOT_FOUND,
    waitForVaultConfirmation := fun _ => false }

/-- Environment whose chain RPC answers `NOT_FOUND` on the first ten
queries and `SUCCESS` afterwards, with vault liveness confirmed. -/
def envTenNF : Env :=
  { getOrCreateWallet := fun _ => Except.error "unavailable",
    createVaultForUser := fun _ => Except.error "unavailable",
    rpcGetTransaction := fun n => if n < 10 then RpcStatus.NOT_FOUND else RpcStatus.SUCCESS,
    waitForVaultConfirmation := fun _ => true }

/-- Environment with a working wallet provider and a failing vault
adapter. -/
def envWalletOk : Env :=
  { getOrCreateWallet := fun _ => Except.ok { address := "GNEW", chain := "stellar" },
    createVaultForUser := fun _ => Except.error "DeFindex API unavailable",
    rpcGetTransaction := fun _ => RpcStatus.NOT_FOUND,
    waitForVaultConfirmation := fun _ => false }

/-- Store with a `READY` user. -/
def dbReady : Datastore := { users := [(uuidA, userReady)], txs := [] }

/-- Store with a user awaiting signature and their pending `LOCK`
record. -/
def dbPendingSig : Datastore :=
  { users := [(uuidA, userPendingSig)], txs := [(uuidT1, lockTxMeta)] }

/-- Store with a wallet-less user. -/
def dbNoWallet : Datastore := { users := [(uuidA, userNoWallet)], txs := [] }

/-- Store whose `LOCK` record lacks the predicted vault address. -/
def dbLockNoMeta : Datastore :=
  { users := [(uuidA, userPendingSig)], txs := [(uuidT1, lockTxNoMeta)] }

/-- Store whose only transaction belongs to the other user. -/
def dbOtherOwner : Datastore :=
  { users := [(uuidA, userWalletOnly)], txs := [(uuidT1, txOtherOwner)] }

/-- Store with a user mid-onboarding, for the status reporting claims. -/
def dbWalletOnly : Datastore := { users := [(uuidA, userWalletOnly)], txs := [] }

/-- A legacy-shaped confirm payload: wallet locator and raw XDR, no
transaction hash. -/
def legacyBody : RequestBody :=
  { userId := some uuidA, txId := some uuidT1, transactionHash := none,
    walletLocator := some "email:a@x.com:stellar",
    transactionXDR := some "AAAAAgAAAABr" }

/-- A failure message containing two of the resolver's phrases at once. -/
def bothPhrasesMsg : String :=
  "no wallet address and already has an active vault"

theorem truthyStr_none_of_falsy (o : Option String) (h : strTruthy o = false) :
    truthyStr o = none := by
  cases o with
  | none => rfl
  | some s =>
    simp [strTruthy] at h
    simp [truthyStr, h]

theorem truthyStr_some_of_truthy (o : Option String) (h : strTruthy o = true) :
    truthyStr o = o := by
  cases o with
  | none => simp [strTruthy] at h
  | some s =>
    simp [strTruthy] at h
    simp [truthyStr, h]

theorem upsertUser_existing (db : Datastore) (uid email : String) (u : UserRecord)
    (h : findUser db uid = some u) : upsertUser db uid email = db := by
  simp [upsertUser, h]

/-- Claim C3: for a user whose persisted record has status `READY`,
`onboardUser` returns the persisted fields immediately, leaves the store
unchanged, performs no wallet-provider or vault-adapter call (the result
does not depend on the environment), and a second call returns the same
terminal fields. -/
theorem onboardReadyShortCircuit (env : Env) (db : Datastore) (uid email : String)
    (u : UserRecord) (hfind : findUser db uid = some u)
    (hready : u.buffer_onboarding_status = some "READY") :
    onboardUser env db uid email =
      (Except.ok { userId := uid, stellarAddress := u.stellar_address,
                   vaultAddress := u.defindex_vault_address, status := "READY" }, db)
    ∧ (∀ env2 : Env, onboardUser env2 db uid email = onboardUser env db uid email)
    ∧ onboardUser env (onboardUser env db uid email).2 uid email
        = onboardUser env db uid email := by
  have key : ∀ e : Env, onboardUser e db uid email =
      (Except.ok { userId := uid, stellarAddress := u.stellar_address,
                   vaultAddress := u.defindex_vault_address, status := "READY" }, db) := by
    intro e
    simp [onboardUser, onboardUserTry, upsertUser_existing db uid email u hfind, hfind, hready]
  refine ⟨key env, fun e2 => (key e2).trans (key env).symm, ?_⟩
  rw [key env]
  exact key env

/-- Witness for C3 at a concrete `READY` user. -/
theorem onboardReadyShortCircuitWitness :
    findUser dbReady uuidA = some userReady
    ∧ userReady.buffer_onboarding_status = some "READY"
    ∧ onboardUser envAllNF dbReady uuidA "a@x.com" =
        (Except.ok { userId := uuidA, stellarAddress := userReady.stellar_address,
                     vaultAddress := userReady.defindex_vault_address,
                     status := "READY" }, dbReady) :=
  ⟨by decide, rfl,
   (onboardReadyShortCircuit envAllNF dbReady uuidA "a@x.com" userReady (by decide) rfl).1⟩

/-- Claim C4: confirming a transaction that does not belong to the
calling user (in particular one that exists but is owned by another
user) fails and leaves the store — hence the record's status — entirely
unchanged; only a matching `(userId, txId)` pair can confirm. -/
theorem confirmOwnershipIsolation (db : Datastore) (uid txId hash : String)
    (h : ((findTx db txId).all fun tx => !(tx.profileId == uid)) = true) :
    confirmBufferTransactionForUser db uid txId hash
      = (Except.error (ServiceError.confirmTxNotFound txId), db) := by
  unfold confirmBufferTransactionForUser
  cases hf : findTx db txId with
  | none => rfl
  | some tx =>
    rw [hf] at h
    simp [Option.all] at h
    simp [h]

/-- Witness for C4: the record exists but belongs to the other user. -/
theorem confirmOwnershipIsolationWitness :
    findTx dbOtherOwner uuidT1 = some txOtherOwner
    ∧ ((findTx dbOtherOwner uuidT1).all fun tx => !(tx.profileId == uuidA)) = true
    ∧ confirmBufferTransactionForUser dbOtherOwner uuidA uuidT1 "deadbeef"
        = (Except.error (ServiceError.confirmTxNotFound uuidT1), dbOtherOwner) :=
  ⟨by decide, by decide,
   confirmOwnershipIsolation dbOtherOwner uuidA uuidT1 "deadbeef" (by decide)⟩

/-- Claim C5: a payload matching the legacy pre-signed shape (wallet
locator and raw XDR, no transaction hash) is rejected by both confirm
operations with the distinct 409 `USER_SIGNATURE_REQUIRED` condition,
not a generic validation error, and the store is untouched. -/
theorem legacySubmitRejected (db : Datastore) (b : RequestBody) (req : LegacySubmitRequest)
    (hleg : parseLegacySubmit b = some req)
    (hnohash : b.transactionHash = none ∨ b.transactionHash = some "") :
    submitDeposit db b
        = ({ statusCode := 409, errorCode := some "USER_SIGNATURE_REQUIRED" }, db)
    ∧ submitWithdraw db b
        = ({ statusCode := 409, errorCode := some "USER_SIGNATURE_REQUIRED" }, db) := by
  have hc : parseConfirm b = none := by
    unfold parseConfirm
    rcases hnohash with h | h <;> rw [h] <;> cases b.userId <;> cases b.txId <;> simp
  constructor <;> simp [submitDeposit, submitWithdraw, hc, hleg]

/-- Witness for C5 at a concrete legacy payload. -/
theorem legacySubmitRejectedWitness :
    legacyBody.transactionHash = none
    ∧ submitDeposit dbOtherOwner legacyBody
        = ({ statusCode := 409, errorCode := some "USER_SIGNATURE_REQUIRED" }, dbOtherOwner) :=
  ⟨rfl,
   (legacySubmitRejected dbOtherOwner legacyBody
      { userId := uuidA, txId := uuidT1, walletLocator := "email:a@x.com:stellar",
        transactionXDR := "AAAAAgAAAABr" }
      (by decide) (Or.inl rfl)).1⟩

/-- Claim C6: for a user whose record has no (truthy) wallet address,
`prepareVaultCreation` fails with the wallet-not-ready error — which the
Status Resolver maps to 409 `WALLET_NOT_READY` — and the store is
returned unchanged: no transaction record, no status write. -/
theorem prepareVaultNoWallet (env : Env) (db : Datastore) (uid freshTxId : String)
    (u : UserRecord) (hfind : findUser db uid = some u)
    (hw : strTruthy u.stellar_address = false) :
    prepareVaultCreation env db uid freshTxId = (Except.error ServiceError.noWallet, db)
    ∧ resolveStatusFromMessage ServiceError.noWallet.message
        = { statusCode := 409, errorCode := "WALLET_NOT_READY" } := by
  constructor
  · have ht := truthyStr_none_of_falsy u.stellar_address hw
    simp [prepareVaultCreation, hfind, ht]
  · decide

/-- Witness for C6 at a concrete wallet-less user. -/
theorem prepareVaultNoWalletWitness :
    strTruthy userNoWallet.stellar_address = false
    ∧ prepareVaultCreation envAllNF dbNoWallet uuidA uuidT1
        = (Except.error ServiceError.noWallet, dbNoWallet) :=
  ⟨rfl,
   (prepareVaultNoWallet envAllNF dbNoWallet uuidA uuidT1 userNoWallet (by decide) rfl).1⟩

/-- Claim C7: with a wallet present, `prepareVaultCreation` fails with
the already-active error — mapped to 409 `VAULT_ALREADY_ACTIVE` — before
any store write or vault-adapter call exactly when the vault address is
truthy AND the status is `READY`; when only one of the two conditions
holds, that failure is not raised. -/
theorem prepareVaultAlreadyActive (env : Env) (db : Datastore) (uid freshTxId : String)
    (u : UserRecord) (hfind : findUser db uid = some u)
    (hw : strTruthy u.stellar_address = true) :
    ((strTruthy u.defindex_vault_address = true
        ∧ u.buffer_onboarding_status = some "READY") →
      prepareVaultCreation env db uid freshTxId
          = (Except.error ServiceError.alreadyActive, db)
      ∧ (∀ env2 : Env, prepareVaultCreation env2 db uid freshTxId
            = prepareVaultCreation env db uid freshTxId)
      ∧ resolveStatusFromMessage ServiceError.alreadyActive.message
          = { statusCode := 409, errorCode := "VAULT_ALREADY_ACTIVE" })
    ∧ ((strTruthy u.defindex_vault_address = true
        ∧ u.buffer_onboarding_status ≠ some "READY") →
      (prepareVaultCreation env db uid freshTxId).1 ≠ Except.error ServiceError.alreadyActive)
    ∧ ((strTruthy u.defindex_vault_address = false
        ∧ u.buffer_onboarding_status = some "READY") →
      (prepareVaultCreation env db uid freshTxId).1
        ≠ Except.error ServiceError.alreadyActive) := by
  have ht := truthyStr_some_of_truthy u.stellar_address hw
  refine ⟨?_, ?_, ?_⟩
  · rintro ⟨hv, hs⟩
    have key : ∀ e : Env, prepareVaultCreation e db uid freshTxId
        = (Except.error ServiceError.alreadyActive, db) := by
      intro e
      cases ha : u.stellar_address with
      | none => rw [ha] at hw; simp [strTruthy] at hw
      | some s =>
        rw [ha] at ht
        simp [prepareVaultCreation, hfind, ha, ht, hv, hs]
    exact ⟨key env, fun e2 => (key e2).trans (key env).symm, by decide⟩
  · rintro ⟨hv, hs⟩
    have hcond : (u.buffer_onboarding_status == some "READY") = false := by
      simpa using hs
    cases ha : u.stellar_address with
    | none => rw [ha] at hw; simp [strTruthy] at hw
    | some s =>
      rw [ha] at ht
      cases hvr : env.createVaultForUser s <;>
        simp [prepareVaultCreation, hfind, ha, ht, hcond, hvr]
  · rintro ⟨hv, hs⟩
    cases ha : u.stellar_address with
    | none => rw [ha] at hw; simp [strTruthy] at hw
    | some s =>
      rw [ha] at ht
      cases hvr : env.createVaultForUser s <;>
        simp [prepareVaultCreation, hfind, ha, ht, hv, hvr]

/-- Witness for C7 at a `READY` user with an active vault. -/
theorem prepareVaultAlreadyActiveWitness :
    strTruthy userReady.stellar_address = true
    ∧ strTruthy userReady.defindex_vault_address = true
    ∧ userReady.buffer_onboarding_status = some "READY"
    ∧ prepareVaultCreation envAllNF dbReady uuidA uuidT1
        = (Except.error ServiceError.alreadyActive, dbReady) :=
  ⟨rfl, rfl, rfl,
   ((prepareVaultAlreadyActive envAllNF dbReady uuidA uuidT1 userReady (by decide) rfl).1
     ⟨rfl, rfl⟩).1⟩

/-- Counterexample to claim C8 as stated: a message containing the
no-wallet-address phrase need not map to `WALLET_NOT_READY` — when it
also contains the already-active phrase, the earlier match wins. -/
theorem resolverPhrasePriorityCounter :
    containsSub (asciiLower bothPhrasesMsg) "no wallet address" = true
    ∧ resolveStatusFromMessage bothPhrasesMsg
        = { statusCode := 409, errorCode := "VAULT_ALREADY_ACTIVE" }
    ∧ resolveStatusFromMessage bothPhrasesMsg
        ≠ { statusCode := 409, errorCode := "WALLET_NOT_READY" } := by
  refine ⟨by decide, by decide, by decide⟩

/-- Claim C8 (amended): the Status Resolver is a total function on
message strings; the four phrase checks are tried in a fixed order on
the lowercased message, the first match determining the `(status,
errorCode)` pair, and every string matching none of them yields the
internal-error pair with status 500. -/
theorem resolverTotalOrdered (msg : String) :
    (containsSub (asciiLower msg) "already has an active vault" = true →
      resolveStatusFromMessage msg = { statusCode := 409, errorCode := "VAULT_ALREADY_ACTIVE" })
    ∧ (containsSub (asciiLower msg) "already has an active vault" = false →
       containsSub (asciiLower msg) "no wallet address" = true →
      resolveStatusFromMessage msg = { statusCode := 409, errorCode := "WALLET_NOT_READY" })
    ∧ (containsSub (asciiLower msg) "already has an active vault" = false →
       containsSub (asciiLower msg) "no wallet address" = false →
       containsSub (asciiLower msg) "missing predicted vault address" = true →
      resolveStatusFromMessage msg
        = { statusCode := 409, errorCode := "VAULT_SUBMIT_INVALID_STATE" })
    ∧ (containsSub (asciiLower msg) "already has an active vault" = false →
       containsSub (asciiLower msg) "no wallet address" = false →
       containsSub (asciiLower msg) "missing predicted vault address" = false →
       containsSub (asciiLower msg) "not confirmed" = true →
      resolveStatusFromMessage msg = { statusCode := 409, errorCode := "VAULT_NOT_CONFIRMED" })
    ∧ (containsSub (asciiLower msg) "already has an active vault" = false →
       containsSub (asciiLower msg) "no wallet address" = false →
       containsSub (asciiLower msg) "missing predicted vault address" = false →
       containsSub (asciiLower msg) "not confirmed" = false →
      resolveStatusFromMessage msg
        = { statusCode := 500, errorCode := "ONBOARDING_INTERNAL_ERROR" }) := by
  refine ⟨?_, ?_, ?_, ?_, ?_⟩ <;> intros <;> simp [resolveStatusFromMessage, *]

/-- Witness for C8 at each service failure message. -/
theorem resolverTotalOrderedWitness :
    resolveStatusFromMessage ServiceError.alreadyActive.message
        = { statusCode := 409, errorCode := "VAULT_ALREADY_ACTIVE" }
    ∧ resolveStatusFromMessage ServiceError.missingPredicted.message
        = { statusCode := 409, errorCode := "VAULT_SUBMIT_INVALID_STATE" }
    ∧ resolveStatusFromMessage "boom"
        = { statusCode := 500, errorCode := "ONBOARDING_INTERNAL_ERROR" } :=
  ⟨(resolverTotalOrdered ServiceError.alreadyActive.message).1 (by decide),
   (resolverTotalOrdered ServiceError.missingPredicted.message).2.2.1
     (by decide) (by decide) (by decide),
   (resolverTotalOrdered "boom").2.2.2.2 (by decide) (by decide) (by decide) (by decide)⟩

/-- Counterexample to claim C9 as stated: the user's record exists, yet
a transient read failure makes `getStatus` report `NOT_STARTED`. -/
theorem getStatusTransientNotStarted :
    findUser dbWalletOnly uuidA = some userWalletOnly
    ∧ (getStatus dbWalletOnly true { userId := some uuidA }).status
        = some "NOT_STARTED" := by
  refine ⟨by decide, by decide⟩

/-- Claim C9 (amended): `getStatus` reports `NOT_STARTED` exactly when
the record read fails — because no record exists yet or because the read
fails for a transient reason; on a successful read of an existing record
(whose stored status is a genuine status, not the literal
`"NOT_STARTED"`), `NOT_STARTED` is not reported. -/
theorem getStatusNotStartedIff (db : Datastore) (readFault : Bool) (uid : String)
    (hid : isUuid uid = true)
    (hlit : ((findUser db uid).all fun u =>
        !(u.buffer_onboarding_status == some "NOT_STARTED")) = true) :
    ((getStatus db readFault { userId := some uid }).status = some "NOT_STARTED"
      ↔ (readFault = true ∨ findUser db uid = none)) := by
  cases readFault with
  | true => simp [getStatus, hid]
  | false =>
    cases hf : findUser db uid with
    | none => simp [getStatus, hid, hf]
    | some u =>
      rw [hf] at hlit
      simp only [Option.all] at hlit
      cases hs : u.buffer_onboarding_status with
      | none => simp [getStatus, hid, hf, hs]
      | some s =>
        rw [hs] at hlit
        have hne : s ≠ "NOT_STARTED" := by simpa using hlit
        simp [getStatus, hid, hf, hs, hne]

/-- Witness for C9: with no transient fault, `NOT_STARTED` is reported
iff the record is absent. -/
theorem getStatusNotStartedIffWitness :
    isUuid uuidA = true
    ∧ ((getStatus dbWalletOnly false { userId := some uuidA }).status
          = some "NOT_STARTED"
        ↔ (false = true ∨ findUser dbWalletOnly uuidA = none)) :=
  ⟨by decide,
   getStatusNotStartedIff dbWalletOnly false uuidA (by decide) (by decide)⟩

/-- Claim C10: `submitVaultCreation` marks the owned `LOCK` record
`CONFIRMED` as its first store effect, so whenever a later step fails —
missing predicted vault address, a chain-RPC outcome other than
`SUCCESS`, or vault liveness not confirmed — the error is raised with
the record already `CONFIRMED` in the final store (no rollback). -/
theorem submitConfirmsBeforeValidation (env : Env) (db : Datastore)
    (uid txId hash : String) (tx : TxRecord)
    (hfind : findTx db txId = some tx) (hown : tx.profileId = uid)
    (hfail : recordPredicted tx = none
      ∨ pollTransaction env.rpcGetTransaction ≠ RpcStatus.SUCCESS
      ∨ (∃ pva, recordPredicted tx = some pva
            ∧ env.waitForVaultConfirmation pva = false)) :
    exceptIsOk (submitVaultCreation env db uid txId hash).1 = false
    ∧ findTx (submitVaultCreation env db uid txId hash).2 txId
        = some { tx with status := some "CONFIRMED", stellarTxHash := some hash } := by
  have hbeq : (tx.profileId == uid) = true := by simp [hown]
  have hdb1 : findTx
      { db with txs := assocUpdate db.txs txId fun t =>
          if t.profileId == uid then
            { t with status := some "CONFIRMED", stellarTxHash := some hash }
          else t } txId
      = some { tx with status := some "CONFIRMED", stellarTxHash := some hash } := by
    show assocFind (assocUpdate db.txs txId fun t =>
        if t.profileId == uid then
          { t with status := some "CONFIRMED", stellarTxHash := some hash }
        else t) txId
      = some { tx with status := some "CONFIRMED", stellarTxHash := some hash }
    rw [assocFind_update]
    unfold findTx at hfind
    rw [hfind]
    exact congrArg some (if_pos hbeq)
  have hmeta : recordPredicted
      { tx with status := some "CONFIRMED", stellarTxHash := some hash }
      = recordPredicted tx := rfl
  unfold submitVaultCreation submitAfterConfirm confirmBufferTransactionForUser
  rw [hfind]
  simp only [hbeq, if_true]
  unfold getBufferTransactionForUser
  rw [hdb1]
  simp only [hbeq, if_true]
  rw [hmeta]
  generalize hg : ({ db with txs := assocUpdate db.txs txId fun t =>
      if t.profileId == uid then
        { t with status := some "CONFIRMED", stellarTxHash := some hash }
      else t } : Datastore) = d1 at hdb1 ⊢
  cases hp : recordPredicted tx with
  | none => exact ⟨rfl, hdb1⟩
  | some pva =>
    rcases hfail with hfail | hfail | hfail
    · rw [hp] at hfail; cases hfail
    · have hb : (pollTransaction env.rpcGetTransaction == RpcStatus.SUCCESS) = false := by
        simpa using hfail
      rw [hb]
      exact ⟨rfl, hdb1⟩
    · obtain ⟨pva2, hpe, hwc⟩ := hfail
      rw [hp] at hpe
      cases hpe
      cases hpoll : (pollTransaction env.rpcGetTransaction == RpcStatus.SUCCESS) with
      | false => exact ⟨rfl, hdb1⟩
      | true => simp [hwc, exceptIsOk, hdb1]

/-- Witness for C10: the metadata lacks the predicted address, and the
record ends up `CONFIRMED` anyway. -/
theorem submitConfirmsBeforeValidationWitness :
    findTx dbLockNoMeta uuidT1 = some lockTxNoMeta
    ∧ lockTxNoMeta.profileId = uuidA
    ∧ recordPredicted lockTxNoMeta = none
    ∧ exceptIsOk (submitVaultCreation envAllNF dbLockNoMeta uuidA uuidT1 "cafe").1 = false
    ∧ findTx (submitVaultCreation envAllNF dbLockNoMeta uuidA uuidT1 "cafe").2 uuidT1
        = some { lockTxNoMeta with status := some "CONFIRMED", stellarTxHash := some "cafe" } := by
  have h := submitConfirmsBeforeValidation envAllNF dbLockNoMeta uuidA uuidT1 "cafe"
    lockTxNoMeta (by decide) rfl (Or.inl rfl)
  exact ⟨by decide, rfl, rfl, h.1, h.2⟩

theorem pollRetries_allNF (o : Nat → RpcStatus)
    (h : ∀ n, n ≤ 10 → o n = RpcStatus.NOT_FOUND) :
    ∀ fuel i, i + fuel = 10 → pollRetries o fuel i RpcStatus.NOT_FOUND
      = RpcStatus.NOT_FOUND := by
  intro fuel
  induction fuel with
  | zero => intro i _; rfl
  | succ k ih =>
    intro i hik
    show pollRetries o (k + 1) i RpcStatus.NOT_FOUND = RpcStatus.NOT_FOUND
    rw [pollRetries, if_pos rfl, h (i + 1) (by omega)]
    exact ih (i + 1) (by omega)

/-- Counterexample to claim C1 as stated: against a chain RPC that
answers `NOT_FOUND` on ten consecutive queries (and `SUCCESS` on the
eleventh), `submitVaultCreation` succeeds — the loop performs one
initial query plus up to ten retries, eleven queries in all. -/
theorem submitVaultTenNotFoundSucceeds :
    returnsTenNF envTenNF.rpcGetTransaction = true
    ∧ exceptIsOk (submitVaultCreation envTenNF dbPendingSig uuidA uuidT1 "abc123").1
        = true := by
  refine ⟨by decide, by decide⟩

/-- Claim C1 (amended): after the LOCK record is confirmed, the chain
RPC is queried once and, while the answer is `NOT_FOUND`, re-queried up
to ten further times (eleven queries in all).  With `NOT_FOUND` nine
times then `SUCCESS` the call proceeds past the polling step and
succeeds; it fails when all eleven queries answer `NOT_FOUND`. -/
theorem submitVaultPollBudget (env : Env) (db : Datastore)
    (uid txId hash pva : String) (tx : TxRecord)
    (hfind : findTx db txId = some tx) (hown : tx.profileId = uid)
    (hpred : recordPredicted tx = some pva) :
    ((∀ n, n ≤ 10 → env.rpcGetTransaction n = RpcStatus.NOT_FOUND) →
      (submitVaultCreation env db uid txId hash).1
        = Except.error (ServiceError.rpcBadStatus "NOT_FOUND"))
    ∧ ((∀ n, n < 9 → env.rpcGetTransaction n = RpcStatus.NOT_FOUND) →
       env.rpcGetTransaction 9 = RpcStatus.SUCCESS →
       env.waitForVaultConfirmation pva = true →
      (submitVaultCreation env db uid txId hash).1
        = Except.ok { txId := txId, transactionHash := hash,
                      vaultAddress := pva, status := "READY" }) := by
  have hbeq : (tx.profileId == uid) = true := by simp [hown]
  have hdb1 : findTx
      { db with txs := assocUpdate db.txs txId fun t =>
          if t.profileId == uid then
            { t with status := some "CONFIRMED", stellarTxHash := some hash }
          else t } txId
      = some { tx with status := some "CONFIRMED", stellarTxHash := some hash } := by
    show assocFind (assocUpdate db.txs txId fun t =>
        if t.profileId == uid then
          { t with status := some "CONFIRMED", stellarTxHash := some hash }
        else t) txId
      = some { tx with status := some "CONFIRMED", stellarTxHash := some hash }
    rw [assocFind_update]
    unfold findTx at hfind
    rw [hfind]
    exact congrArg some (if_pos hbeq)
  have hmeta : recordPredicted
      { tx with status := some "CONFIRMED", stellarTxHash := some hash }
      = recordPredicted tx := rfl
  constructor
  · intro hnf
    have hpoll : pollTransaction env.rpcGetTransaction = RpcStatus.NOT_FOUND := by
      unfold pollTransaction
      rw [hnf 0 (by omega)]
      exact pollRetries_allNF env.rpcGetTransaction hnf 10 0 (by omega)
    unfold submitVaultCreation submitAfterConfirm confirmBufferTransactionForUser
    rw [hfind]
    simp only [hbeq, if_true]
    unfold getBufferTransactionForUser
    rw [hdb1]
    simp only [hbeq, if_true]
    rw [hmeta, hpred, hpoll]
    rfl
  · intro hnf h9 hwc
    have hpoll : pollTransaction env.rpcGetTransaction = RpcStatus.SUCCESS := by
      unfold pollTransaction
      rw [hnf 0 (by omega)]
      rw [pollRetries, if_pos rfl, hnf 1 (by omega)]
      rw [pollRetries, if_pos rfl, hnf 2 (by omega)]
      rw [pollRetries, if_pos rfl, hnf 3 (by omega)]
      rw [pollRetries, if_pos rfl, hnf 4 (by omega)]
      rw [pollRetries, if_pos rfl, hnf 5 (by omega)]
      rw [pollRetries, if_pos rfl, hnf 6 (by omega)]
      rw [pollRetries, if_pos rfl, hnf 7 (by omega)]
      rw [pollRetries, if_pos rfl, hnf 8 (by omega)]
      rw [pollRetries, if_pos rfl, h9]
      rfl
    unfold submitVaultCreation submitAfterConfirm confirmBufferTransactionForUser
    rw [hfind]
    simp only [hbeq, if_true]
    unfold getBufferTransactionForUser
    rw [hdb1]
    simp only [hbeq, if_true]
    rw [hmeta, hpred, hpoll]
    simp [hwc]

/-- Witness for C1: with an always-`NOT_FOUND` chain RPC the submission
fails with the RPC-status error. -/
theorem submitVaultPollBudgetWitness :
    findTx dbPendingSig uuidT1 = some lockTxMeta
    ∧ recordPredicted lockTxMeta = some "CVAULT1"
    ∧ (submitVaultCreation envAllNF dbPendingSig uuidA uuidT1 "abc123").1
        = Except.error (ServiceError.rpcBadStatus "NOT_FOUND") :=
  ⟨by decide, rfl,
   (submitVaultPollBudget envAllNF dbPendingSig uuidA uuidT1 "abc123" "CVAULT1"
      lockTxMeta (by decide) rfl rfl).1 (fun n _ => rfl)⟩

theorem statusRank_le_four (o : Option String) (a : Nat) (h : statusRank o = some a) :
    a ≤ 4 := by
  unfold statusRank at h
  split at h <;> (simp_all; all_goals omega)

theorem statusRank_le_one (o : Option String) (a : Nat) (h : statusRank o = some a)
    (h2 : o ≠ some "VAULT_PREPARING") (h3 : o ≠ some "VAULT_PENDING_SIGNATURE")
    (h4 : o ≠ some "READY") : a ≤ 1 := by
  unfold statusRank at h
  split at h <;> (simp_all; all_goals omega)

theorem movedBack_left_rankless (old x : Option String) (h : statusRank old = none) :
    movedBack old x = false := by
  unfold movedBack
  rw [h]

theorem movedBack_right_rankless (old x : Option String) (h : statusRank x = none) :
    movedBack old x = false := by
  unfold movedBack
  rw [h]
  cases statusRank old <;> rfl

theorem movedBack_self (s : Option String) : movedBack s s = false := by
  unfold movedBack
  cases statusRank s with
  | none => rfl
  | some a => simp

theorem movedBack_ready (s : Option String) : movedBack s (some "READY") = false := by
  unfold movedBack
  cases h : statusRank s with
  | none => rfl
  | some a =>
    have ha := statusRank_le_four s a h
    show decide (4 < a) = false
    simp only [decide_eq_false_iff_not]
    omega

theorem movedBack_wallet_created (s : Option String)
    (h2 : s ≠ some "VAULT_PREPARING") (h3 : s ≠ some "VAULT_PENDING_SIGNATURE")
    (h4 : s ≠ some "READY") : movedBack s (some "WALLET_CREATED") = false := by
  unfold movedBack
  cases h : statusRank s with
  | none => rfl
  | some a =>
    have ha := statusRank_le_one s a h h2 h3 h4
    show decide (1 < a) = false
    simp only [decide_eq_false_iff_not]
    omega

theorem findUser_update (db : Datastore) (uid status : String) (p : ProfilePatch) :
    findUser (updateUserOnboardingStatus db uid status p) uid
      = (findUser db uid).map (applyProfilePatch status p) :=
  assocFind_update db.users uid (applyProfilePatch status p)

theorem statusOf_some (db : Datastore) (uid : String) (u : UserRecord)
    (h : findUser db uid = some u) :
    statusOf db uid = u.buffer_onboarding_status := by
  simp [statusOf, h]

theorem statusOf_update_some (db : Datastore) (uid status : String) (p : ProfilePatch)
    (u : UserRecord) (h : findUser db uid = some u) :
    statusOf (updateUserOnboardingStatus db uid status p) uid = some status := by
  simp [statusOf, findUser_update, h, applyProfilePatch]

theorem statusOf_users_eq (d1 d2 : Datastore) (uid : String) (h : d1.users = d2.users) :
    statusOf d1 uid = statusOf d2 uid := by
  unfold statusOf findUser assocFind
  rw [h]

theorem confirm_keeps_users (db : Datastore) (uid txId hash : String) :
    ((confirmBufferTransactionForUser db uid txId hash).2).users = db.users := by
  unfold confirmBufferTransactionForUser
  cases findTx db txId with
  | none => rfl
  | some tx =>
    by_cases h : (tx.profileId == uid) = true
    · simp [h]
    · simp [h]

theorem submitAfterConfirm_status (env : Env) (db1 : Datastore)
    (uid txId hash : String) :
    statusOf (submitAfterConfirm env db1 uid txId hash).2 uid = statusOf db1 uid
    ∨ statusOf (submitAfterConfirm env db1 uid txId hash).2 uid = some "READY"
    ∨ statusOf (submitAfterConfirm env db1 uid txId hash).2 uid = none := by
  unfold submitAfterConfirm
  repeat' split
  all_goals
    first
      | exact Or.inl rfl
      | (cases hf : findUser db1 uid with
         | some u2 =>
           exact Or.inr (Or.inl (statusOf_update_some db1 uid "READY" _ u2 hf))
         | none =>
           refine Or.inr (Or.inr ?_)
           simp [statusOf, findUser_update, hf])

theorem submit_status_cases (env : Env) (db : Datastore) (uid txId hash : String) :
    statusOf (submitVaultCreation env db uid txId hash).2 uid = statusOf db uid
    ∨ statusOf (submitVaultCreation env db uid txId hash).2 uid = some "READY"
    ∨ statusOf (submitVaultCreation env db uid txId hash).2 uid = none := by
  unfold submitVaultCreation
  rcases hc : confirmBufferTransactionForUser db uid txId hash with ⟨r, db1⟩
  have husers : db1.users = db.users := by
    have h0 := confirm_keeps_users db uid txId hash
    rw [hc] at h0
    exact h0
  have hst : statusOf db1 uid = statusOf db uid := statusOf_users_eq db1 db uid husers
  cases r with
  | error e => exact Or.inl hst
  | ok unitv =>
    rcases submitAfterConfirm_status env db1 uid txId hash with h | h | h
    · exact Or.inl (h.trans hst)
    · exact Or.inr (Or.inl h)
    · exact Or.inr (Or.inr h)

theorem onboard_not_back (env : Env) (db : Datastore) (uid email : String)
    (hinv : userWalletInv db uid = true) :
    movedBack (statusOf db uid) (statusOf (onboardUser env db uid email).2 uid)
      = false := by
  cases hu : findUser db uid with
  | none =>
    have hold : statusOf db uid = none := by simp [statusOf, hu]
    rw [hold]
    exact movedBack_left_rankless none _ rfl
  | some u =>
    have hup : upsertUser db uid email = db := upsertUser_existing db uid email u hu
    have hold : statusOf db uid = u.buffer_onboarding_status := statusOf_some db uid u hu
    by_cases hready : u.buffer_onboarding_status = some "READY"
    · have h2 : (onboardUser env db uid email).2 = db := by
        simp [onboardUser, onboardUserTry, hup, hu, hready]
      rw [h2]
      exact movedBack_self _
    · rw [userWalletInv, hu] at hinv
      simp only [Option.all] at hinv
      by_cases hw : strTruthy u.stellar_address = true
      · by_cases hv : strTruthy u.defindex_vault_address = true
        · have h2 : (onboardUser env db uid email).2 = db := by
            simp [onboardUser, onboardUserTry, hup, hu, hready, hw, hv]
          rw [h2]
          exact movedBack_self _
        · cases hs : u.buffer_onboarding_status with
          | none =>
            have h2 : (onboardUser env db uid email).2 = db := by
              simp [onboardUser, onboardUserTry, hup, hu, hready, hw, hv, hs]
            rw [h2]
            exact movedBack_self _
          | some s =>
            by_cases hse : s = ""
            · subst hse
              have h2 : (onboardUser env db uid email).2 = db := by
                simp [onboardUser, onboardUserTry, hup, hu, hready, hw, hv, hs]
              rw [h2]
              exact movedBack_self _
            · by_cases hns : s = "NOT_STARTED"
              · subst hns
                have h2 : (onboardUser env db uid email).2
                    = updateUserOnboardingStatus db uid "WALLET_CREATED" {} := by
                  simp [onboardUser, onboardUserTry, hup, hu, hready, hw, hv, hs,
                        findUser_update]
                rw [h2, hold, hs,
                    statusOf_update_some db uid "WALLET_CREATED" {} u hu]
                decide
              · by_cases hp : s = "PENDING"
                · subst hp
                  have h2 : (onboardUser env db uid email).2
                      = updateUserOnboardingStatus db uid "WALLET_CREATED" {} := by
                    simp [onboardUser, onboardUserTry, hup, hu, hready, hw, hv, hs,
                          findUser_update]
                  rw [h2, hold, hs,
                      statusOf_update_some db uid "WALLET_CREATED" {} u hu]
                  decide
                · have hsr : s ≠ "READY" := by
                    intro h
                    exact hready (by rw [hs, h])
                  have h2 : (onboardUser env db uid email).2 = db := by
                    simp [onboardUser, onboardUserTry, hup, hu, hready, hw, hv, hs,
                          hse, hns, hp, hsr]
                  rw [h2]
                  exact movedBack_self _
      · have hwf : strTruthy u.stellar_address = false := by
          cases hb : strTruthy u.stellar_address with
          | true => exact absurd hb hw
          | false => rfl
        have hnv : u.buffer_onboarding_status ≠ some "VAULT_PREPARING"
            ∧ u.buffer_onboarding_status ≠ some "VAULT_PENDING_SIGNATURE" := by
          rw [hwf] at hinv
          simp at hinv
          exact hinv
        cases hcw : env.getOrCreateWallet email with
        | error msg =>
          have h2 : (onboardUser env db uid email).2
              = updateUserOnboardingStatus db uid "FAILED" {} := by
            simp [onboardUser, onboardUserTry, hup, hu, hready, hw, createWallet, hcw]
          rw [h2, statusOf_update_some db uid "FAILED" {} u hu]
          exact movedBack_right_rankless _ _ rfl
        | ok w =>
          have h2 : (onboardUser env db uid email).2
              = updateUserOnboardingStatus db uid "WALLET_CREATED"
                  { stellar_address := some w.address,
                    crossmint_wallet_id := some w.address } := by
            simp [onboardUser, onboardUserTry, hup, hu, hready, hw, createWallet, hcw,
                  findUser_update, applyProfilePatch]
          rw [h2, hold, statusOf_update_some db uid "WALLET_CREATED" _ u hu]
          exact movedBack_wallet_created u.buffer_onboarding_status hnv.1 hnv.2 hready

/-- Counterexample to claim C2 as stated: re-invoking
`prepareVaultCreation` for a user at `VAULT_PENDING_SIGNATURE` writes
`VAULT_PREPARING` before the vault-adapter call — a backward move, left
in place here because the adapter call fails. -/
theorem prepareVaultStatusRegression :
    statusOf dbPendingSig uuidA = some "VAULT_PENDING_SIGNATURE"
    ∧ statusOf (prepareVaultCreation envWalletOk dbPendingSig uuidA uuidB).2 uuidA
        = some "VAULT_PREPARING"
    ∧ movedBack (statusOf dbPendingSig uuidA)
        (statusOf (prepareVaultCreation envWalletOk dbPendingSig uuidA uuidB).2 uuidA)
        = true := by
  refine ⟨by decide, by decide, by decide⟩

/-- Claim C2 (amended): under the reachability invariant that users in
the vault-creation stages have a wallet address, neither `onboardUser`
nor `submitVaultCreation` ever moves the onboarding status backward in
the order PENDING < WALLET_CREATED < VAULT_PREPARING <
VAULT_PENDING_SIGNATURE < READY (moves into `FAILED`, which sits outside
the order, remain allowed).  `prepareVaultCreation` is the exception the
counterexample exhibits: re-invoking it moves a `VAULT_PENDING_SIGNATURE`
user back to `VAULT_PREPARING`. -/
theorem onboardSubmitStatusMonotone (env : Env) (db : Datastore)
    (uid email txId hash : String) (hinv : userWalletInv db uid = true) :
    movedBack (statusOf db uid) (statusOf (onboardUser env db uid email).2 uid) = false
    ∧ movedBack (statusOf db uid) (statusOf (submitVaultCreation env db uid txId hash).2 uid)
        = false := by
  refine ⟨onboard_not_back env db uid email hinv, ?_⟩
  rcases submit_status_cases env db uid txId hash with h | h | h
  · rw [h]
    exact movedBack_self _
  · rw [h]
    exact movedBack_ready _
  · rw [h]
    exact movedBack_right_rankless _ none rfl

/-- Witness for C2 at a fresh `PENDING` user whose wallet gets created. -/
theorem onboardSubmitStatusMonotoneWitness :
    userWalletInv dbNoWallet uuidA = true
    ∧ (movedBack (statusOf dbNoWallet uuidA)
          (statusOf (onboardUser envWalletOk dbNoWallet uuidA "a@x.com").2 uuidA) = false
       ∧ movedBack (statusOf dbNoWallet uuidA)
          (statusOf (submitVaultCreation envWalletOk dbNoWallet uuidA uuidT1 "h1").2 uuidA)
            = false) :=
  ⟨by decide,
   onboardSubmitStatusMonotone envWalletOk dbNoWallet uuidA "a@x.com" uuidT1 "h1"
     (by decide)⟩
